import Mathlib

/-!
Verification of the route-rendering pipeline of `src/index.js`
(vercel-native-ssr): route-file parsing, script evaluation, path
resolution, one-time template-fragment loading, and the request handler.

Text is modelled as `List Char` (named `Str` here) so that every
operation reduces in the kernel.  JavaScript string primitives used by
the source (`String.prototype.match` with a non-greedy regex,
`trim`, `replace` with a string pattern, `indexOf`, `startsWith`,
`endsWith`, `slice`, `join`) are embedded as explicit list functions.
Fallible JavaScript code (thrown `Error` objects) is embedded as
`Except Str`, the error value being the thrown message.
-/

abbrev Str : Type := List Char

/-- Turns a Lean string literal into the `Str` model of a JS string. -/
def strOf (s : String) : Str := s.data

/-- Does `pat` occur at the very start of `s`?  Models the anchoring step
of a regex / `String.prototype.startsWith`. -/
def begins : Str → Str → Bool
  | [], _ => true
  | _ :: _, [] => false
  | a :: as, b :: bs => if a = b then begins as bs else false

/-- Index of the first occurrence of `pat` inside `s`
(JS `String.prototype.indexOf`, and the leftmost-match rule of
`String.prototype.match`). -/
def findSub (pat : Str) : Str → Option Nat
  | [] => if begins pat [] then some 0 else none
  | c :: rest =>
    if begins pat (c :: rest) then some 0
    else (findSub pat rest).map (· + 1)

/-- `pat` occurs in `s` at index `i`. -/
def occursAt (pat s : Str) (i : Nat) : Prop := begins pat (List.drop i s) = true

instance (pat s : Str) (i : Nat) : Decidable (occursAt pat s i) :=
  inferInstanceAs (Decidable (_ = true))

/-- JS whitespace characters relevant to `String.prototype.trim`
(space, tab, line feed, carriage return, vertical tab, form feed). -/
def isJsWs (c : Char) : Bool :=
  c = ' ' || c = '\t' || c = '\n' || c = '\r' ||
    c = Char.ofNat 11 || c = Char.ofNat 12

/-- JS `String.prototype.trim`: strip whitespace from both ends. -/
def trimChars (s : Str) : Str :=
  ((List.dropWhile isJsWs s).reverse.dropWhile isJsWs).reverse

/-- The captured group of the first (leftmost, non-greedy) match of the
regex `o([inner]*?)c` in `s`: content between the first occurrence of the
opening tag and the first occurrence of the closing tag after it.
Models `content.match(/<script>([\s\S]*?)<\/script>/)` in
`parseRouteFile` (src/index.js lines 21-22). -/
def matchSection (o c s : Str) : Option Str :=
  match findSub o s with
  | none => none
  | some i =>
    let rest := List.drop (i + o.length) s
    match findSub c rest with
    | none => none
    | some j => some (List.take j rest)

def scriptOpenTag : Str := strOf "<script>"
def scriptCloseTag : Str := strOf "</script>"
def tmplOpenTag : Str := strOf "<template>"
def tmplCloseTag : Str := strOf "</template>"

/-- Message of the error thrown by `parseRouteFile` (src/index.js line 25). -/
def malformedMsg : Str :=
  strOf "Route file must contain both <script> and <template> sections"

/-- Embeds `parseRouteFile` (src/index.js lines 20-32): first match of each
marker-pair regex; if either is missing, throw; otherwise return the
trimmed captured groups. -/
def parseRouteFile (content : Str) : Except Str (Str × Str) :=
  match matchSection scriptOpenTag scriptCloseTag content,
        matchSection tmplOpenTag tmplCloseTag content with
  | some s, some t => .ok (trimChars s, trimChars t)
  | _, _ => .error malformedMsg

/-!
## Script evaluation (`executeScript`, src/index.js lines 37-73)

`executeScript` builds a fresh empty `exports` record, wraps the script
source in an async function, runs it, and returns the final `exports`
(the `result || \x7b\x7d` on line 69 always yields the `exports` object,
an object being truthy in JS).  Any failure — the `new Function`
constructor throwing on a syntax error, a synchronous throw, or an
awaited promise rejecting — lands in the `catch` of line 70 and is
re-thrown as `Error executing script: <original message>`.

The JS engine itself is a black box; a script body is embedded as its
observable behaviour: an ordered sequence of property assignments onto
`exports`, possibly cut short by a thrown/rejected error, or a source
text the engine refuses to compile.
-/

/-- The data record a script builds on `exports`: ordered string keys to
string values, JS-object insertion order. -/
abbrev Data : Type := List (Str × Str)

/-- JS property assignment `exports[k] = v`: overwrite in place if the key
exists, else append (JS string-key insertion order). -/
def upsert (k v : Str) : Data → Data
  | [] => [(k, v)]
  | (k', v') :: rest => if k' = k then (k, v) :: rest else (k', v') :: upsert k v rest

/-- One observable step of a script body. -/
inductive ScriptStep where
  | assign (k v : Str)
  | throwErr (m : Str)
deriving DecidableEq

/-- Observable behaviour of a script fragment: a source text the engine
rejects at compile time (with the engine message), or a body of steps. -/
inductive Script where
  | synErr (m : Str)
  | body (steps : List ScriptStep)

/-- Runs a script body against the current `exports` record. -/
def runSteps : List ScriptStep → Data → Except Str Data
  | [], d => .ok d
  | .assign k v :: rest, d => runSteps rest (upsert k v d)
  | .throwErr m :: _, _ => .error m

/-- Prefixed message of the error re-thrown on line 71 of src/index.js. -/
def execWrap (m : Str) : Str := strOf "Error executing script: " ++ m

/-- The inbound request consumed by `handler` (src/index.js lines 163-208):
`req.query.path` when it is an array, and `req.url`.  (The pass-through
fields scripts may read are irrelevant to the embedded behaviours.) -/
structure Req where
  queryPath : Option (List Str)
  url : Option Str

/-- Embeds `executeScript` (src/index.js lines 37-73): fresh empty
`exports`, run the body, wrap any failure. -/
def executeScript (s : Script) (_req : Req) : Except Str Data :=
  match s with
  | .synErr m => .error (execWrap m)
  | .body steps =>
    match runSteps steps [] with
    | .ok d => .ok d
    | .error m => .error (execWrap m)

/-!
## Path resolution (`handler`, src/index.js lines 163-208)
-/

/-- JS `Array.prototype.join` with separator `/`. -/
def joinSlash : List Str → Str
  | [] => []
  | [x] => x
  | x :: rest => x ++ strOf "/" ++ joinSlash rest

/-- Lines 174-196 of src/index.js: strip the query string, strip an
`/api` mount, strip one leading slash. -/
def urlToPath (u : Str) : Str :=
  let noQuery := List.takeWhile (fun c => !(c = '?')) u
  let noApi :=
    if begins (strOf "/api/") noQuery then List.drop 5 noQuery
    else if noQuery = strOf "/api" then []
    else noQuery
  match noApi with
  | '/' :: rest => rest
  | other => other

/-- Lines 165-198: the raw route string before default/extension rules.
A `some l` with `l = []` falls through to the `req.url` branch because of
the `length > 0` guard on line 168. -/
def rawRoute (req : Req) : Str :=
  match req.queryPath with
  | some l =>
    if l.length > 0 then joinSlash l
    else match req.url with
      | some u => urlToPath u
      | none => []
  | none =>
    match req.url with
    | some u => urlToPath u
    | none => []

/-- JS `String.prototype.endsWith`. -/
def endsIn (suf s : Str) : Bool := begins suf.reverse s.reverse

/-- Lines 200-208: empty route defaults to `index.html`; otherwise a
`.html` extension is appended when absent. -/
def resolveRoute (req : Req) : Str :=
  let r := rawRoute req
  if r = [] then strOf "index.html"
  else if endsIn (strOf ".html") r then r
  else r ++ strOf ".html"

/-!
## Route rendering (`renderRoute`, src/index.js lines 129-158)

`renderRoute` reads the route file, parses it, evaluates the script, and
computes `currentPath` (lines 144-147).  Line 140 declares
`const data = await executeScript(...)`; line 149 then executes
`data = { ...data, currentPath }`.  Reassigning a `const` binding in a
strict-mode ES module throws `TypeError: Assignment to constant
variable.` at runtime, so control never reaches `renderTemplate` on
line 152: the embedded pipeline fails right after a successful script
evaluation, and the `catch` on line 155 wraps the message.
-/

/-- JS `String.prototype.replace` with a string pattern: replace the
first occurrence only. -/
def replaceFirst (pat repl s : Str) : Str :=
  match findSub pat s with
  | none => s
  | some i => List.take i s ++ repl ++ List.drop (i + pat.length) s

/-- Lines 144-147 of src/index.js: `currentPath` derivation from the
route path (computed, though line 149 then throws before it is used). -/
def currentPathOf (routePath : Str) : Str :=
  let c := strOf "/" ++ replaceFirst (strOf ".html") [] routePath
  if c = strOf "/index" then strOf "/" else c

/-- The read capability: full path to file content, or the message of the
error `readFile` rejects with. -/
abbrev FS : Type := Str → Except Str Str

/-- The JS engine as a black box: script source text to observable
behaviour. -/
abbrev Interp : Type := Str → Script

/-- V8 message of the strict-mode `TypeError` raised by line 149 of
src/index.js (`data = ...` where `data` is a `const`). -/
def constAssignMsg : Str := strOf "Assignment to constant variable."

/-- Wrapper message built by the `catch` on lines 155-157. -/
def failMsg (routePath m : Str) : Str :=
  strOf "Failed to render route " ++ routePath ++ strOf ": " ++ m

/-- Embeds `renderRoute` (src/index.js lines 129-158): read at
`routes/<routePath>`, parse, evaluate, compute `currentPath`, then hit
the `const` reassignment of line 149; every failure is wrapped by the
`catch` with the route path. -/
def renderRoute (interp : Interp) (fs : FS) (routePath : Str) (req : Req) :
    Except Str Str :=
  let attempt : Except Str Str :=
    match fs (strOf "routes/" ++ routePath) with
    | .error e => .error e
    | .ok content =>
      match parseRouteFile content with
      | .error e => .error e
      | .ok (script, _tmpl) =>
        match executeScript (interp script) req with
        | .error e => .error e
        | .ok _data =>
          let _cp := currentPathOf routePath
          .error constAssignMsg
  match attempt with
  | .ok h => .ok h
  | .error m => .error (failMsg routePath m)

/-!
## Request handler (`handler`, src/index.js lines 163-220)
-/

/-- The response written through the hosting boundary: status code,
content-type header, body. -/
structure Resp where
  status : Nat
  contentType : Str
  body : Str
deriving DecidableEq

def htmlCT : Str := strOf "text/html; charset=utf-8"
def plainCT : Str := strOf "text/plain; charset=utf-8"

/-- Embeds `handler` (src/index.js lines 163-220): resolve the route,
render, 200/`text/html` on success, 500/`text/plain` with
`Error: <message>` on any failure. -/
def handler (interp : Interp) (fs : FS) (req : Req) : Resp :=
  match renderRoute interp fs (resolveRoute req) req with
  | .ok html => ⟨200, htmlCT, html⟩
  | .error m => ⟨500, plainCT, strOf "Error: " ++ m⟩

/-!
## One-time fragment loading (`loadPartials`, src/index.js lines 78-113)

`loadPartials` guards a module-level boolean flag (line 10) with a plain
check-then-act: line 79 reads the flag and returns early when set; the
load itself (`readdir`, then per file `readFile` + register) sits behind
`await` points, and the flag is only written after the loop (line 101).
`renderTemplate` (line 118) awaits it on every render, the code comment
on line 119 promising it "will only load once due to cache".

Concurrency is embedded as an interleaving semantics over the atomic
synchronous segments between `await` points: (1) the flag check up to
the `readdir` call, (2) the `readdir` completion, (3) each `readFile`
completion together with its registration (and, for the last file, the
flag write that follows the loop in the same segment).  A schedule picks
which in-flight call advances at each step.
-/

/-- Program counter of one in-flight `loadPartials` call, one constructor
per suspension point. -/
inductive LoadPC where
  | idle
  | fetchList
  | reg (rem : List Str)
  | finished
deriving DecidableEq

/-- Shared state plus the in-flight calls: the module-level flag of
line 10, the sequence of registration events (which name was passed to
`Handlebars.registerPartial`, in order), and each call's counter. -/
structure LoadSys where
  flag : Bool
  events : List Str
  tasks : List LoadPC
deriving DecidableEq

/-- Advance in-flight call `i` by one atomic segment.  `files` is the
(template-like) directory listing `readdir` returns. -/
def loadStep (files : List Str) (sys : LoadSys) (i : Nat) : LoadSys :=
  match sys.tasks.get? i with
  | none => sys
  | some pc =>
    match pc with
    | .idle =>
      if sys.flag then { sys with tasks := sys.tasks.set i .finished }
      else { sys with tasks := sys.tasks.set i .fetchList }
    | .fetchList =>
      match files with
      | [] => { sys with flag := true, tasks := sys.tasks.set i .finished }
      | _ => { sys with tasks := sys.tasks.set i (.reg files) }
    | .reg [] => { sys with flag := true, tasks := sys.tasks.set i .finished }
    | .reg (f :: rest) =>
      match rest with
      | [] => ⟨true, sys.events ++ [f], sys.tasks.set i .finished⟩
      | _ => { sys with events := sys.events ++ [f], tasks := sys.tasks.set i (.reg rest) }
    | .finished => sys

/-- Run a schedule (a list of task indices) from a state. -/
def loadRun (files : List Str) (schedule : List Nat) (sys : LoadSys) : LoadSys :=
  schedule.foldl (loadStep files) sys

/-- N fresh concurrent first calls over an unloaded registry. -/
def loadInit (n : Nat) : LoadSys :=
  ⟨false, [], List.replicate n .idle⟩

/-- A marker pair is present: the opening tag occurs somewhere, and the
closing tag occurs at or after the end of that opening occurrence.
Stated over occurrences only, independently of the matcher. -/
def hasPair (o c s : Str) : Prop :=
  ∃ i j, occursAt o s i ∧ occursAt c s j ∧ i + o.length ≤ j

/-- The script section of the scenario route file: `exports.title = 'Hi';`. -/
def c1Script : Str := strOf "exports.title = \x27Hi\x27;"

/-- The template section of the scenario route file: `<h1>{{title}}</h1>`. -/
def c1Tmpl : Str := strOf "<h1>\x7b\x7btitle\x7d\x7d</h1>"

/-- The scenario route file text. -/
def c1File : Str :=
  scriptOpenTag ++ c1Script ++ scriptCloseTag ++ tmplOpenTag ++ c1Tmpl ++ tmplCloseTag

/-- JS engine behaviour for the scenario: the scenario script assigns
`title = "Hi"` onto `exports`; anything else is irrelevant here. -/
def c1Interp : Interp :=
  fun s => if s = c1Script then .body [.assign (strOf "title") (strOf "Hi")] else .synErr []

/-- Read capability for the scenario: the scenario file sits at
`routes/index.html`. -/
def c1Fs : FS :=
  fun p => if p = strOf "routes/index.html" then .ok c1File else .error (strOf "ENOENT")

/-- A request for `/`, resolving to `index.html`. -/
def c1Req : Req := ⟨none, some (strOf "/")⟩

/-- A read capability whose every read fails with message `boom`. -/
def boomFs : FS := fun _ => .error (strOf "boom")

/-- An engine behaviour that is never consulted in the failing fixtures. -/
def stuckInterp : Interp := fun _ => .synErr []

/-- A request carrying no routing hint at all. -/
def emptyReq : Req := ⟨none, none⟩

/-- A script fragment fails with original message `m`: the engine
rejects the source outright, or its body throws/rejects before
completing. -/
def scriptFails : Script → Str → Prop
  | .synErr m, m0 => m = m0
  | .body steps, m0 => runSteps steps [] = .error m0

/-- A route file whose two sections are present but empty. -/
def emptySectionsFile : Str := strOf "<script></script><template></template>"

/-- The directory listing for the race scenario: one template-like file. -/
def menuListing : List Str := [strOf "menu"]

/-!
## Correctness of the substring matcher

`findSub` is JS `indexOf`: it returns the index of the leftmost
occurrence, and returns an index exactly when an occurrence exists.
These lemmas characterise `matchSection` (and hence `parseRouteFile`)
against an occurrence-based well-formedness predicate that is stated
independently of the matcher.
-/

theorem findSub_sound (pat : Str) :
    ∀ (s : Str) (i : Nat), findSub pat s = some i → occursAt pat s i := by
  intro s
  induction s with
  | nil =>
    intro i h
    unfold findSub at h
    by_cases hb : begins pat [] = true
    · simp [hb] at h
      subst h
      simpa [occursAt] using hb
    · simp [hb] at h
  | cons c rest ih =>
    intro i h
    unfold findSub at h
    by_cases hb : begins pat (c :: rest) = true
    · simp [hb] at h
      subst h
      simpa [occursAt] using hb
    · simp [hb] at h
      obtain ⟨i', hi', rfl⟩ := h
      have := ih i' hi'
      simpa [occursAt, List.drop_succ_cons] using this

theorem findSub_complete (pat : Str) :
    ∀ (s : Str) (i : Nat), occursAt pat s i → (findSub pat s).isSome = true := by
  intro s
  induction s with
  | nil =>
    intro i h
    have hb : begins pat [] = true := by
      simpa [occursAt, List.drop_nil] using h
    simp [findSub, hb]
  | cons c rest ih =>
    intro i h
    by_cases hb : begins pat (c :: rest) = true
    · simp [findSub, hb]
    · cases i with
      | zero =>
        exact absurd (by simpa [occursAt] using h) hb
      | succ i' =>
        have h' : occursAt pat rest i' := by
          simpa [occursAt, List.drop_succ_cons] using h
        have := ih i' h'
        simp [findSub, hb, Option.isSome_map]
        simpa using this

theorem findSub_min (pat : Str) :
    ∀ (s : Str) (i : Nat), findSub pat s = some i →
      ∀ k, k < i → ¬ occursAt pat s k := by
  intro s
  induction s with
  | nil =>
    intro i h k hk
    unfold findSub at h
    by_cases hb : begins pat [] = true
    · simp [hb] at h
      omega
    · simp [hb] at h
  | cons c rest ih =>
    intro i h k hk
    unfold findSub at h
    by_cases hb : begins pat (c :: rest) = true
    · simp [hb] at h
      omega
    · simp [hb] at h
      obtain ⟨i', hi', rfl⟩ := h
      cases k with
      | zero =>
        intro hk0
        exact hb (by simpa [occursAt] using hk0)
      | succ k' =>
        intro hkk
        have : occursAt pat rest k' := by
          simpa [occursAt, List.drop_succ_cons] using hkk
        exact ih i' hi' k' (by omega) this

theorem matchSection_isSome_iff (o c s : Str) :
    (matchSection o c s).isSome = true ↔ hasPair o c s := by
  constructor
  · intro h
    cases ho : findSub o s with
    | none => simp [matchSection, ho] at h
    | some i =>
      cases hc : findSub c (List.drop (i + o.length) s) with
      | none => simp [matchSection, ho, hc] at h
      | some j =>
        have hoc := findSub_sound o s i ho
        have hcc := findSub_sound c _ j hc
        refine ⟨i, i + o.length + j, hoc, ?_, by omega⟩
        have heq : List.drop j (List.drop (i + o.length) s) =
            List.drop (i + o.length + j) s := by
          rw [List.drop_drop]
        simpa [occursAt, heq] using hcc
  · rintro ⟨i, j, ho, hc, hle⟩
    have hfo := findSub_complete o s i ho
    obtain ⟨i0, hi0⟩ := Option.isSome_iff_exists.mp hfo
    have hi0le : i0 ≤ i := by
      by_contra hlt
      exact findSub_min o s i0 hi0 i (by omega) ho
    have hcrest : occursAt c (List.drop (i0 + o.length) s) (j - (i0 + o.length)) := by
      have heq : List.drop (j - (i0 + o.length)) (List.drop (i0 + o.length) s) =
          List.drop j s := by
        rw [List.drop_drop]
        congr 1
        omega
      simpa [occursAt, heq] using hc
    have hfc := findSub_complete c _ _ hcrest
    obtain ⟨j0, hj0⟩ := Option.isSome_iff_exists.mp hfc
    simp [matchSection, hi0, hj0]

/-!
## Helper: every render attempt ends in a wrapped error

Because line 149 of src/index.js reassigns the `const` binding `data`,
the pipeline inside `renderRoute` has no successful outcome: every run
ends in the `catch` of line 155, whose error message names the route
path.
-/

theorem renderRoute_error_shape (interp : Interp) (fs : FS) (p : Str) (req : Req) :
    ∃ m, renderRoute interp fs p req = .error (failMsg p m) := by
  cases hfs : fs (strOf "routes/" ++ p) with
  | error e => exact ⟨e, by simp [renderRoute, hfs]⟩
  | ok content =>
    cases hp : parseRouteFile content with
    | error e => exact ⟨e, by simp [renderRoute, hfs, hp]⟩
    | ok st =>
      obtain ⟨sc, tm⟩ := st
      cases hex : executeScript (interp sc) req with
      | error e => exact ⟨e, by simp [renderRoute, hfs, hp, hex]⟩
      | ok d => exact ⟨constAssignMsg, by simp [renderRoute, hfs, hp, hex]⟩

/-!
## Fixtures for the end-to-end scenario
-/

/-- C1: the spec says the scenario route file (script
`exports.title = 'Hi';`, template `<h1>{{title}}</h1>`) renders to
`<h1>Hi</h1>` with status 200 and content-type `text/html;
charset=utf-8`.  The code instead reaches the `const` reassignment on
line 149 of src/index.js (`data = ...` after `const data = ...` on line
140), which throws in a strict-mode ES module, so the handler answers
500/`text/plain` with the wrapped `TypeError` message.  This theorem
evaluates the embedded handler at exactly the claimed scenario. -/
theorem c1_scenario_renders_500 :
    handler c1Interp c1Fs c1Req =
      ⟨500, plainCT,
        strOf "Error: Failed to render route index.html: Assignment to constant variable."⟩ :=
  rfl

/-- C2: the spec says every successful render passes data containing the
derived `currentPath` (overwriting any script-provided value) to the
template.  In the code, the very statement that would perform that merge
(line 149 of src/index.js, `data = { ...data, currentPath }`) reassigns
the `const` binding `data` declared on line 140 and therefore throws
`TypeError: Assignment to constant variable.`: whenever the read, parse
and script-evaluation stages all succeed — exactly the runs the claim
quantifies over — the render fails with that message instead of
rendering, so no data (with or without `currentPath`) is ever passed to
the template. -/
theorem c2_merge_statement_throws (interp : Interp) (fs : FS) (p : Str) (req : Req)
    (content sc tm : Str) (d : Data)
    (hfs : fs (strOf "routes/" ++ p) = .ok content)
    (hparse : parseRouteFile content = .ok (sc, tm))
    (hexec : executeScript (interp sc) req = .ok d) :
    renderRoute interp fs p req = .error (failMsg p constAssignMsg) := by
  simp [renderRoute, hfs, hparse, hexec]

/-- Witness for C2 at the concrete scenario fixtures. -/
theorem c2_merge_statement_throws_witness :
    renderRoute c1Interp c1Fs (strOf "index.html") c1Req =
      .error (failMsg (strOf "index.html") constAssignMsg) :=
  c2_merge_statement_throws c1Interp c1Fs (strOf "index.html") c1Req
    c1File c1Script c1Tmpl [(strOf "title", strOf "Hi")] rfl rfl rfl

/-!
## Error propagation to the response (claim C3)
-/

/-- C3: for every request whose rendering pipeline fails at any stage,
the handler answers 500 with content-type `text/plain; charset=utf-8`
and a body that is `Error: ` followed by the caught message — the
deepest message available at the handler boundary, nothing but message
text — and that message, produced by the wrapper in `renderRoute`
(src/index.js lines 155-157), names the offending route path. -/
theorem c3_failure_uniform_500 (interp : Interp) (fs : FS) (req : Req) (m : Str)
    (h : renderRoute interp fs (resolveRoute req) req = .error m) :
    handler interp fs req = ⟨500, plainCT, strOf "Error: " ++ m⟩ ∧
      ∃ inner, m = failMsg (resolveRoute req) inner := by
  refine ⟨by simp [handler, h], ?_⟩
  obtain ⟨m0, hm0⟩ := renderRoute_error_shape interp fs (resolveRoute req) req
  rw [h] at hm0
  injection hm0 with hmsg
  exact ⟨m0, hmsg⟩

/-- Witness for C3: a request whose file read fails. -/
theorem c3_failure_uniform_500_witness :
    handler stuckInterp boomFs emptyReq =
      ⟨500, plainCT, strOf "Error: " ++ failMsg (strOf "index.html") (strOf "boom")⟩ ∧
      ∃ inner, failMsg (strOf "index.html") (strOf "boom") =
        failMsg (resolveRoute emptyReq) inner :=
  c3_failure_uniform_500 stuckInterp boomFs emptyReq
    (failMsg (strOf "index.html") (strOf "boom")) rfl

/-- C4: path resolution on the four specified inputs — empty
path-segment array to `index.html`; `/about` to `about.html`;
`/api/about?x=1` to `about.html` (query stripped, `/api` mount
stripped); `/already.html` unchanged, with no second `.html`. -/
theorem c4_path_resolution_cases :
    resolveRoute ⟨some [], none⟩ = strOf "index.html" ∧
      resolveRoute ⟨none, some (strOf "/about")⟩ = strOf "about.html" ∧
      resolveRoute ⟨none, some (strOf "/api/about?x=1")⟩ = strOf "about.html" ∧
      resolveRoute ⟨none, some (strOf "/already.html")⟩ = strOf "already.html" :=
  ⟨rfl, rfl, rfl, rfl⟩

/-- C5: every failing script evaluation — syntax error, synchronous
throw, or awaited rejection — makes `executeScript` fail with the
wrapped message `Error executing script: <original message>` (the
re-throw on line 71 of src/index.js), and the result is an error
carrying no (partial) exports data. -/
theorem c5_script_failure_wrapped (s : Script) (req : Req) (m : Str)
    (h : scriptFails s m) :
    executeScript s req = .error (execWrap m) := by
  cases s with
  | synErr m' =>
    simp [scriptFails] at h
    subst h
    rfl
  | body steps =>
    simp [scriptFails] at h
    simp [executeScript, h]

/-- Witness for C5: a body that throws with message `boom`. -/
theorem c5_script_failure_wrapped_witness :
    executeScript (.body [.throwErr (strOf "boom")]) emptyReq =
      .error (execWrap (strOf "boom")) :=
  c5_script_failure_wrapped (.body [.throwErr (strOf "boom")]) emptyReq
    (strOf "boom") rfl

/-- C6: a completed script yields exactly what it assigned onto the
fresh `exports` record: two distinct keys give exactly those two fields
in assignment order, and an empty body gives the empty record (the
`result || ...` on line 69 of src/index.js returns the `exports` object
itself, an object being truthy even when empty). -/
theorem c6_exports_exact_fields (k1 k2 v1 v2 : Str) (req : Req) (hne : k1 ≠ k2) :
    executeScript (.body [.assign k1 v1, .assign k2 v2]) req =
        .ok [(k1, v1), (k2, v2)] ∧
      executeScript (.body []) req = .ok [] := by
  refine ⟨?_, rfl⟩
  simp [executeScript, runSteps, upsert, hne]

/-- Witness for C6 with keys `a` and `b`. -/
theorem c6_exports_exact_fields_witness :
    executeScript (.body [.assign (strOf "a") (strOf "1"),
        .assign (strOf "b") (strOf "2")]) emptyReq =
      .ok [(strOf "a", strOf "1"), (strOf "b", strOf "2")] ∧
      executeScript (.body []) emptyReq = .ok [] :=
  c6_exports_exact_fields (strOf "a") (strOf "b") (strOf "1") (strOf "2")
    emptyReq (by decide)

/-!
## Parser claims (C7, C8)
-/

/-- C7 counterexample: the claim requires NON-EMPTY trimmed section
strings for every text containing both marker pairs, but a file with
empty sections is well-formed in exactly that sense and parses to two
empty strings. -/
theorem c7_counterexample :
    hasPair scriptOpenTag scriptCloseTag emptySectionsFile ∧
      hasPair tmplOpenTag tmplCloseTag emptySectionsFile ∧
      parseRouteFile emptySectionsFile = .ok ([], []) :=
  ⟨⟨0, 8, by decide, by decide, by decide⟩,
    ⟨17, 27, by decide, by decide, by decide⟩, rfl⟩

/-- C7 (amended: the returned strings are the whitespace-trimmed inner
text of the first occurrence of each marker pair and may be empty): for
every text containing both marker pairs, parsing succeeds and returns
exactly the trimmed captured groups of the two first matches, with no
side effects (the embedding is a pure function). -/
theorem c7_parse_returns_trimmed_sections (content : Str)
    (h1 : hasPair scriptOpenTag scriptCloseTag content)
    (h2 : hasPair tmplOpenTag tmplCloseTag content) :
    ∃ sRaw tRaw,
      matchSection scriptOpenTag scriptCloseTag content = some sRaw ∧
        matchSection tmplOpenTag tmplCloseTag content = some tRaw ∧
        parseRouteFile content = .ok (trimChars sRaw, trimChars tRaw) := by
  have hs := (matchSection_isSome_iff scriptOpenTag scriptCloseTag content).mpr h1
  have ht := (matchSection_isSome_iff tmplOpenTag tmplCloseTag content).mpr h2
  obtain ⟨sRaw, hsr⟩ := Option.isSome_iff_exists.mp hs
  obtain ⟨tRaw, htr⟩ := Option.isSome_iff_exists.mp ht
  exact ⟨sRaw, tRaw, hsr, htr, by simp [parseRouteFile, hsr, htr]⟩

/-- Witness for the amended C7 on a concrete well-formed file. -/
theorem c7_parse_returns_trimmed_sections_witness :
    ∃ sRaw tRaw,
      matchSection scriptOpenTag scriptCloseTag
          (strOf "<script> x </script><template>y</template>") = some sRaw ∧
        matchSection tmplOpenTag tmplCloseTag
          (strOf "<script> x </script><template>y</template>") = some tRaw ∧
        parseRouteFile (strOf "<script> x </script><template>y</template>") =
          .ok (trimChars sRaw, trimChars tRaw) :=
  c7_parse_returns_trimmed_sections (strOf "<script> x </script><template>y</template>")
    ⟨0, 11, by decide, by decide, by decide⟩
    ⟨20, 31, by decide, by decide, by decide⟩

/-- C8: every route file text missing the script marker pair or the
template marker pair (stated via the occurrence predicate `hasPair`,
independent of the matcher) is rejected with the `MalformedRouteFile`
message of src/index.js line 25 instead of any parse result. -/
theorem c8_missing_section_rejected (content : Str)
    (h : ¬ hasPair scriptOpenTag scriptCloseTag content ∨
        ¬ hasPair tmplOpenTag tmplCloseTag content) :
    parseRouteFile content = .error malformedMsg := by
  cases h with
  | inl hn =>
    have hnone : matchSection scriptOpenTag scriptCloseTag content = none := by
      cases hm : matchSection scriptOpenTag scriptCloseTag content with
      | none => rfl
      | some v =>
        exact absurd ((matchSection_isSome_iff scriptOpenTag scriptCloseTag content).mp
          (by simp [hm])) hn
    simp [parseRouteFile, hnone]
  | inr hn =>
    have hnone : matchSection tmplOpenTag tmplCloseTag content = none := by
      cases hm : matchSection tmplOpenTag tmplCloseTag content with
      | none => rfl
      | some v =>
        exact absurd ((matchSection_isSome_iff tmplOpenTag tmplCloseTag content).mp
          (by simp [hm])) hn
    cases hm : matchSection scriptOpenTag scriptCloseTag content <;>
      simp [parseRouteFile, hm, hnone]

/-- Witness for C8: a text with no markers at all. -/
theorem c8_missing_section_rejected_witness :
    parseRouteFile (strOf "hello") = .error malformedMsg :=
  c8_missing_section_rejected (strOf "hello")
    (Or.inl (fun hp =>
      absurd ((matchSection_isSome_iff scriptOpenTag scriptCloseTag (strOf "hello")).mpr hp)
        (by decide)))

/-!
## One-time loading under concurrency (C9)
-/

/-- C9: the claim says N concurrent first calls perform the full load at
most once, registering each file exactly once.  The flag of src/index.js
line 10 is only written after the awaited load completes (line 101), and
the guard on line 79 is a plain check, so two in-flight first calls can
both pass the guard.  This schedule lets call 0 pass the check, lets
call 1 run the whole load (registering `menu` and setting the flag), and
then resumes call 0, which performs the entire load again: `menu` is
registered twice. -/
theorem c9_first_load_races :
    loadRun menuListing [0, 1, 1, 1, 0, 0] (loadInit 2) =
      ⟨true, [strOf "menu", strOf "menu"], [.finished, .finished]⟩ :=
  rfl

/-- C10: a request with neither a non-empty `query.path` array nor a
`url` string falls through every extraction branch of src/index.js
lines 165-198 to the empty route, which line 201 defaults to
`index.html`. -/
theorem c10_empty_hint_defaults_to_index (qp : Option (List Str))
    (h : qp = none ∨ qp = some []) :
    resolveRoute ⟨qp, none⟩ = strOf "index.html" := by
  rcases h with h | h <;> subst h <;> rfl

/-- Witness for C10 with no `query.path` field at all. -/
theorem c10_empty_hint_defaults_to_index_witness :
    resolveRoute ⟨none, none⟩ = strOf "index.html" :=
  c10_empty_hint_defaults_to_index none (Or.inl rfl)
